import Mathlib

/-!
Verification of the ECS deployment pipeline planner
(`pkg/app/piped/planner/ecs/ecs.go`).

The planner is a pure decision function once its external collaborators
are fixed, so we embed it shallowly: the deploy-source provider call
(`in.TargetDSP.Get`) is passed in as its already-computed result, the
cloud-provider task-definition functions (`provider.LoadTaskDefinition`,
`provider.FindImageTag`) are passed as function parameters, the clock
(`time.Now()`) is an injected value, and the logger is modelled by
accumulating the warning messages the planner emits.
-/

namespace EcsPlanner

/-- `model.SyncStrategy` enumeration (AUTO = 0, QUICK_SYNC = 1, PIPELINE = 2). -/
inductive SyncStrategy where
  | AUTO
  | QUICK_SYNC
  | PIPELINE
deriving DecidableEq, Repr

/-- The part of `model.DeploymentTrigger` the planner reads: the sync strategy. -/
structure DeploymentTrigger where
  syncStrategy : SyncStrategy
deriving DecidableEq, Repr

/-- The part of `model.Deployment` the planner reads: its trigger. -/
structure Deployment where
  trigger : DeploymentTrigger
deriving DecidableEq, Repr

/-- `config.ECSDeploymentInput`: the input section of the ECS deployment
configuration (task-definition file path and auto-rollback flag). -/
structure ECSDeploymentInput where
  taskDefinitionFile : String
  autoRollback : Bool
deriving DecidableEq, Repr

/-- One configured pipeline stage entry; the planner only inspects how many
there are, so its payload is an abstract name. -/
structure PipelineStageConfig where
  name : String
deriving DecidableEq, Repr

/-- `config.AppPipelineSpec`: the optional ordered pipeline section. -/
structure AppPipelineSpec where
  stages : List PipelineStageConfig
deriving DecidableEq, Repr

/-- `config.ECSDeploymentSpec`: provider-specific configuration read by the
planner (`cfg.Input` and `cfg.Pipeline`). -/
structure ECSDeploymentSpec where
  input : ECSDeploymentInput
  pipeline : Option AppPipelineSpec
deriving DecidableEq, Repr

/-- The deployment configuration carried by the deploy source; the planner
reads only its ECS section (`ds.DeploymentConfig.ECSDeploymentSpec`),
which is a nullable pointer in Go, hence an `Option` here. -/
structure DeploymentConfig where
  ecsDeploymentSpec : Option ECSDeploymentSpec
deriving DecidableEq, Repr

/-- `deploysource.DeploySource`: the materialized deploy source
(application directory and resolved deployment configuration). -/
structure DeploySource where
  appDir : String
  deploymentConfig : DeploymentConfig
deriving DecidableEq, Repr

/-- `planner.Input` as read by this planner: the deployment (trigger), the
most recent successful commit hash, and the outcome of the deploy-source
provider's `Get` call (`in.TargetDSP.Get`), embedded as its result. -/
structure PlannerInput where
  deployment : Deployment
  mostRecentSuccessfulCommitHash : String
  targetDSPGet : Except String DeploySource

/-- Black-box carrier for the parsed task definition returned by
`provider.LoadTaskDefinition`; the planner never inspects it, it only
forwards it to `provider.FindImageTag`. -/
structure TaskDefinition where
  raw : String
deriving DecidableEq, Repr

/-- Stage kinds occurring in the planner's quick-sync pipeline. -/
inductive StageName where
  | ECSSync
  | Rollback
deriving DecidableEq, Repr

/-- `model.PipelineStage` as produced by the quick-sync builder: stage kind,
stable ordering index, and creation timestamp (`now.Unix()`). -/
structure PipelineStage where
  name : StageName
  index : Nat
  createdAt : Int
deriving DecidableEq, Repr

/-- `planner.Output` fields written by this planner: version label, ordered
stage list, and display summary. -/
structure PlannerOutput where
  version : String
  stages : List PipelineStage
  summary : String
deriving DecidableEq, Repr

/-- The Go zero value of `planner.Output`, which is what `Plan` returns
alongside a non-nil error. -/
def emptyOutput : PlannerOutput :=
  { version := "", stages := [], summary := "" }

/-- A `Plan` call's observable outcome: the returned output value, the
returned error (Go `error`, `none` meaning nil), and the warning messages
logged through `in.Logger.Warn`. -/
structure PlanResult where
  out : PlannerOutput
  err : Option String
  warnings : List String
deriving DecidableEq, Repr

/-- `determineVersion(appDir, serviceDefinitonFile)`: loads the task
definition and extracts the image tag; both provider functions are external
collaborators passed in as parameters. -/
def determineVersion
    (loadTaskDefinition : String → String → Except String TaskDefinition)
    (findImageTag : TaskDefinition → Except String String)
    (appDir serviceDefinitonFile : String) : Except String String :=
  match loadTaskDefinition appDir serviceDefinitonFile with
  | .error e => .error e
  | .ok taskDefinition => findImageTag taskDefinition

/-- Modelled from the spec: `buildQuickSyncPipeline` lives in the planner
package outside the provided sources; §4.3 of the specification states that
it always emits a primary ECS "deploy + shift all traffic" stage first,
appends a trailing rollback stage exactly when auto-rollback is enabled,
assigns sequential ordering indices starting from base 0, and stamps each
stage with the injected time. -/
def buildQuickSyncPipeline (autoRollback : Bool) (now : Int) : List PipelineStage :=
  let sync : PipelineStage := { name := .ECSSync, index := 0, createdAt := now }
  if autoRollback then
    [sync, { name := .Rollback, index := 1, createdAt := now }]
  else
    [sync]

/-- `(*Planner).Plan`: decides which pipeline should be used for the given
input. A straight transcription of the Go decision tree: fatal error on
deploy-source failure, fatal error on missing ECS configuration section,
non-fatal version resolution, then the ordered strategy selection
(explicit quick sync → first deployment → no pipeline configured →
default), every branch building the quick-sync stage list. -/
def Plan (inp : PlannerInput)
    (loadTaskDefinition : String → String → Except String TaskDefinition)
    (findImageTag : TaskDefinition → Except String String)
    (now : Int) : PlanResult :=
  match inp.targetDSPGet with
  | .error e =>
      { out := emptyOutput
        err := some ("error while preparing deploy source data (" ++ e ++ ")")
        warnings := [] }
  | .ok ds =>
    match ds.deploymentConfig.ecsDeploymentSpec with
    | none =>
        { out := emptyOutput
          err := some "missing ECSDeploymentSpec in deployment configuration"
          warnings := [] }
    | some cfg =>
      let vres := determineVersion loadTaskDefinition findImageTag
        ds.appDir cfg.input.taskDefinitionFile
      let version := match vres with
        | .ok v => v
        | .error _ => "unknown"
      let warnings := match vres with
        | .ok _ => []
        | .error e => ["unable to determine target version: " ++ e]
      match inp.deployment.trigger.syncStrategy with
      | .QUICK_SYNC =>
          { out := { version := version
                     stages := buildQuickSyncPipeline cfg.input.autoRollback now
                     summary := "Quick sync to deploy image " ++ version ++
                       " and configure all traffic to it (forced via web)" }
            err := none
            warnings := warnings }
      | _ =>
        if inp.mostRecentSuccessfulCommitHash = "" then
          { out := { version := version
                     stages := buildQuickSyncPipeline cfg.input.autoRollback now
                     summary := "Quick sync to deploy image " ++ version ++
                       " and configure all traffic to it (it seems this is the first deployment)" }
            err := none
            warnings := warnings }
        else if (match cfg.pipeline with
                 | none => true
                 | some p => p.stages.length == 0) then
          { out := { version := version
                     stages := buildQuickSyncPipeline cfg.input.autoRollback now
                     summary := "Quick sync to deploy image " ++ version ++
                       " and configure all traffic to it (pipeline was not configured)" }
            err := none
            warnings := warnings }
        else
          { out := { version := version
                     stages := buildQuickSyncPipeline cfg.input.autoRollback now
                     summary := "Quick sync to deploy image " ++ version ++
                       " and configure all traffic to it" }
            err := none
            warnings := warnings }

/-- `model.ApplicationKind` enumeration values. -/
inductive ApplicationKind where
  | KUBERNETES
  | TERRAFORM
  | CROSSPLANE
  | LAMBDA
  | CLOUDRUN
  | ECS
deriving DecidableEq, Repr

/-- Observable behaviour of one call to the package-level `Register`
function: which application kinds it passed to the registerer's `Register`
method, the error each such call returned, and the error `Register` itself
surfaces to its caller (`none` always, since the Go function returns
nothing and ignores the registerer's error). -/
structure RegisterTrace where
  calls : List ApplicationKind
  registererErrors : List (Option String)
  surfaced : Option String
deriving DecidableEq, Repr

/-- `Register(r registerer)`: calls `r.Register(model.ApplicationKind_ECS,
&Planner{})` once and discards its result; the function itself has no
return value, so no error is surfaced. The registerer's `Register` method
is abstracted to the error it returns for a given kind. -/
def Register (r : ApplicationKind → Except String Unit) : RegisterTrace :=
  let res := r ApplicationKind.ECS
  { calls := [ApplicationKind.ECS]
    registererErrors := [match res with | .ok _ => none | .error e => some e]
    surfaced := none }

/-- `pat` occurs as a contiguous substring of `s`. -/
def ContainsSubstr (s pat : String) : Prop :=
  pat.data <:+: s.data

instance (s pat : String) : Decidable (ContainsSubstr s pat) :=
  inferInstanceAs (Decidable (pat.data <:+: s.data))

end EcsPlanner

namespace EcsPlanner

/-! Concrete inputs used by the witness theorems. -/

/-- An ECS configuration with auto-rollback enabled and no pipeline section. -/
def cfgEx : ECSDeploymentSpec :=
  { input := { taskDefinitionFile := "taskdef.json", autoRollback := true }
    pipeline := none }

/-- A deploy source carrying `cfgEx`. -/
def dsEx : DeploySource :=
  { appDir := "app", deploymentConfig := { ecsDeploymentSpec := some cfgEx } }

/-- A non-empty configured pipeline section. -/
def pipeEx : AppPipelineSpec :=
  { stages := [{ name := "ECS_CANARY_ROLLOUT" }] }

/-- An ECS configuration with auto-rollback disabled and a non-empty pipeline. -/
def cfgPipeEx : ECSDeploymentSpec :=
  { input := { taskDefinitionFile := "taskdef.json", autoRollback := false }
    pipeline := some pipeEx }

/-- A deploy source carrying `cfgPipeEx`. -/
def dsPipeEx : DeploySource :=
  { appDir := "app", deploymentConfig := { ecsDeploymentSpec := some cfgPipeEx } }

/-- A task-definition loader that succeeds. -/
def loadEx : String → String → Except String TaskDefinition :=
  fun _ _ => .ok { raw := "taskdef" }

/-- An image-tag finder that resolves to tag v1.2.3. -/
def findEx : TaskDefinition → Except String String :=
  fun _ => .ok "v1.2.3"

/-- An image-tag finder that fails. -/
def findFailEx : TaskDefinition → Except String String :=
  fun _ => .error "no image tag found"

/-- If `pat` occurs in `s2` then it occurs in `s1 ++ mid ++ s2`. -/
theorem containsSubstr_append_right (s1 mid s2 pat : String)
    (h : ContainsSubstr s2 pat) : ContainsSubstr (s1 ++ mid ++ s2) pat := by
  obtain ⟨u, v, huv⟩ := h
  refine ⟨s1.data ++ mid.data ++ u, v, ?_⟩
  rw [String.data_append, String.data_append, ← huv]
  simp [List.append_assoc]

/-- On every input whose deploy source materializes and carries an ECS
configuration section, `Plan` succeeds and its stage list is the quick-sync
pipeline built from the configuration's auto-rollback flag. -/
theorem plan_success (inp : PlannerInput) (ds : DeploySource) (cfg : ECSDeploymentSpec)
    (load : String → String → Except String TaskDefinition)
    (find : TaskDefinition → Except String String) (now : Int)
    (hget : inp.targetDSPGet = .ok ds)
    (hcfg : ds.deploymentConfig.ecsDeploymentSpec = some cfg) :
    (Plan inp load find now).err = none ∧
    (Plan inp load find now).out.stages = buildQuickSyncPipeline cfg.input.autoRollback now := by
  cases hstrat : inp.deployment.trigger.syncStrategy <;>
    simp only [Plan, hget, hcfg, hstrat] <;>
    (try split) <;> (try split) <;> refine ⟨?_, ?_⟩ <;> trivial

end EcsPlanner

namespace EcsPlanner

/-- C1: whenever the trigger explicitly requests quick sync and the deploy
source materializes with an ECS configuration section present, `Plan`
succeeds, returns the quick-sync stage list, and its summary contains
"forced via web" — regardless of the configuration's pipeline section and
of the most-recent-successful-revision field; the branch takes precedence
over all later ones. -/
theorem C1_explicit_quick_sync_forced_via_web
    (hash : String) (ds : DeploySource) (cfg : ECSDeploymentSpec)
    (load : String → String → Except String TaskDefinition)
    (find : TaskDefinition → Except String String) (now : Int)
    (hcfg : ds.deploymentConfig.ecsDeploymentSpec = some cfg) :
    (Plan { deployment := { trigger := { syncStrategy := .QUICK_SYNC } },
            mostRecentSuccessfulCommitHash := hash,
            targetDSPGet := .ok ds } load find now).err = none ∧
    (Plan { deployment := { trigger := { syncStrategy := .QUICK_SYNC } },
            mostRecentSuccessfulCommitHash := hash,
            targetDSPGet := .ok ds } load find now).out.stages =
      buildQuickSyncPipeline cfg.input.autoRollback now ∧
    ContainsSubstr
      (Plan { deployment := { trigger := { syncStrategy := .QUICK_SYNC } },
              mostRecentSuccessfulCommitHash := hash,
              targetDSPGet := .ok ds } load find now).out.summary
      "forced via web" := by
  refine ⟨?_, ?_, ?_⟩ <;> simp only [Plan, hcfg] <;> try trivial
  exact containsSubstr_append_right _ _ _ _ (by decide)

/-- C1 witness: the theorem applied to a concrete forced-quick-sync request
with auto-rollback enabled and a prior successful revision recorded. -/
theorem C1_explicit_quick_sync_forced_via_web_witness :
    dsEx.deploymentConfig.ecsDeploymentSpec = some cfgEx ∧
    ((Plan { deployment := { trigger := { syncStrategy := .QUICK_SYNC } },
             mostRecentSuccessfulCommitHash := "abc",
             targetDSPGet := .ok dsEx } loadEx findEx 42).err = none ∧
     (Plan { deployment := { trigger := { syncStrategy := .QUICK_SYNC } },
             mostRecentSuccessfulCommitHash := "abc",
             targetDSPGet := .ok dsEx } loadEx findEx 42).out.stages =
       buildQuickSyncPipeline cfgEx.input.autoRollback 42 ∧
     ContainsSubstr
       (Plan { deployment := { trigger := { syncStrategy := .QUICK_SYNC } },
               mostRecentSuccessfulCommitHash := "abc",
               targetDSPGet := .ok dsEx } loadEx findEx 42).out.summary
       "forced via web") :=
  ⟨rfl, C1_explicit_quick_sync_forced_via_web "abc" dsEx cfgEx loadEx findEx 42 rfl⟩

end EcsPlanner

namespace EcsPlanner

/-- C2: when the most-recent-successful-revision field is empty and the
trigger does not explicitly request quick sync, a successful `Plan` returns
the quick-sync stage list and a summary mentioning "first deployment",
whatever the pipeline section says. -/
theorem C2_first_deployment_quick_sync
    (strat : SyncStrategy) (ds : DeploySource) (cfg : ECSDeploymentSpec)
    (load : String → String → Except String TaskDefinition)
    (find : TaskDefinition → Except String String) (now : Int)
    (hstrat : strat ≠ SyncStrategy.QUICK_SYNC)
    (hcfg : ds.deploymentConfig.ecsDeploymentSpec = some cfg) :
    (Plan { deployment := { trigger := { syncStrategy := strat } },
            mostRecentSuccessfulCommitHash := "",
            targetDSPGet := .ok ds } load find now).err = none ∧
    (Plan { deployment := { trigger := { syncStrategy := strat } },
            mostRecentSuccessfulCommitHash := "",
            targetDSPGet := .ok ds } load find now).out.stages =
      buildQuickSyncPipeline cfg.input.autoRollback now ∧
    ContainsSubstr
      (Plan { deployment := { trigger := { syncStrategy := strat } },
              mostRecentSuccessfulCommitHash := "",
              targetDSPGet := .ok ds } load find now).out.summary
      "first deployment" := by
  cases strat
  case QUICK_SYNC => exact absurd rfl hstrat
  all_goals
    refine ⟨?_, ?_, ?_⟩ <;> simp only [Plan, hcfg, reduceIte] <;> try trivial
  all_goals exact containsSubstr_append_right _ _ _ _ (by decide)

/-- C2 witness: the theorem applied to a concrete first deployment
triggered with the pipeline-sync strategy. -/
theorem C2_first_deployment_quick_sync_witness :
    SyncStrategy.PIPELINE ≠ SyncStrategy.QUICK_SYNC ∧
    dsEx.deploymentConfig.ecsDeploymentSpec = some cfgEx ∧
    ((Plan { deployment := { trigger := { syncStrategy := .PIPELINE } },
             mostRecentSuccessfulCommitHash := "",
             targetDSPGet := .ok dsEx } loadEx findEx 42).err = none ∧
     (Plan { deployment := { trigger := { syncStrategy := .PIPELINE } },
             mostRecentSuccessfulCommitHash := "",
             targetDSPGet := .ok dsEx } loadEx findEx 42).out.stages =
       buildQuickSyncPipeline cfgEx.input.autoRollback 42 ∧
     ContainsSubstr
       (Plan { deployment := { trigger := { syncStrategy := .PIPELINE } },
               mostRecentSuccessfulCommitHash := "",
               targetDSPGet := .ok dsEx } loadEx findEx 42).out.summary
       "first deployment") :=
  ⟨by decide, rfl,
   C2_first_deployment_quick_sync .PIPELINE dsEx cfgEx loadEx findEx 42 (by decide) rfl⟩

end EcsPlanner

namespace EcsPlanner

/-- C3: when the pipeline section is absent or lists no stages, the trigger
does not explicitly request quick sync, and a previously successful
revision exists, a successful `Plan` returns the quick-sync stage list and
a summary mentioning that the pipeline was not configured. -/
theorem C3_no_pipeline_quick_sync
    (strat : SyncStrategy) (hash : String) (ds : DeploySource) (cfg : ECSDeploymentSpec)
    (load : String → String → Except String TaskDefinition)
    (find : TaskDefinition → Except String String) (now : Int)
    (hstrat : strat ≠ SyncStrategy.QUICK_SYNC)
    (hhash : hash ≠ "")
    (hcfg : ds.deploymentConfig.ecsDeploymentSpec = some cfg)
    (hpipe : ∀ p, cfg.pipeline = some p → p.stages = []) :
    (Plan { deployment := { trigger := { syncStrategy := strat } },
            mostRecentSuccessfulCommitHash := hash,
            targetDSPGet := .ok ds } load find now).err = none ∧
    (Plan { deployment := { trigger := { syncStrategy := strat } },
            mostRecentSuccessfulCommitHash := hash,
            targetDSPGet := .ok ds } load find now).out.stages =
      buildQuickSyncPipeline cfg.input.autoRollback now ∧
    ContainsSubstr
      (Plan { deployment := { trigger := { syncStrategy := strat } },
              mostRecentSuccessfulCommitHash := hash,
              targetDSPGet := .ok ds } load find now).out.summary
      "pipeline was not configured" := by
  cases strat
  case QUICK_SYNC => exact absurd rfl hstrat
  all_goals
    rcases hp : cfg.pipeline with _ | p
    · refine ⟨?_, ?_, ?_⟩ <;>
        simp only [Plan, hcfg, if_neg hhash, hp, reduceIte] <;> try trivial
      exact containsSubstr_append_right _ _ _ _ (by decide)
    · have hps := hpipe p hp
      refine ⟨?_, ?_, ?_⟩ <;>
        simp only [Plan, hcfg, if_neg hhash, hp, hps, reduceIte] <;> try trivial
      exact containsSubstr_append_right _ _ _ _ (by decide)

/-- C3 witness: the theorem applied to a concrete auto-triggered deployment
with a recorded prior revision and no configured pipeline. -/
theorem C3_no_pipeline_quick_sync_witness :
    SyncStrategy.AUTO ≠ SyncStrategy.QUICK_SYNC ∧
    ("abc" : String) ≠ "" ∧
    dsEx.deploymentConfig.ecsDeploymentSpec = some cfgEx ∧
    ((Plan { deployment := { trigger := { syncStrategy := .AUTO } },
             mostRecentSuccessfulCommitHash := "abc",
             targetDSPGet := .ok dsEx } loadEx findEx 42).err = none ∧
     (Plan { deployment := { trigger := { syncStrategy := .AUTO } },
             mostRecentSuccessfulCommitHash := "abc",
             targetDSPGet := .ok dsEx } loadEx findEx 42).out.stages =
       buildQuickSyncPipeline cfgEx.input.autoRollback 42 ∧
     ContainsSubstr
       (Plan { deployment := { trigger := { syncStrategy := .AUTO } },
               mostRecentSuccessfulCommitHash := "abc",
               targetDSPGet := .ok dsEx } loadEx findEx 42).out.summary
       "pipeline was not configured") :=
  ⟨by decide, by decide, rfl,
   C3_no_pipeline_quick_sync .AUTO "abc" dsEx cfgEx loadEx findEx 42
     (by decide) (by decide) rfl (fun p hp => by simp [cfgEx] at hp)⟩

end EcsPlanner

namespace EcsPlanner

/-- C4: when the deploy source materializes and the ECS configuration
section is present but version resolution fails, `Plan` still succeeds,
sets the version to the sentinel "unknown", and logs a warning — on every
strategy branch. -/
theorem C4_version_resolution_failure_nonfatal
    (inp : PlannerInput) (ds : DeploySource) (cfg : ECSDeploymentSpec)
    (load : String → String → Except String TaskDefinition)
    (find : TaskDefinition → Except String String) (now : Int) (e : String)
    (hget : inp.targetDSPGet = .ok ds)
    (hcfg : ds.deploymentConfig.ecsDeploymentSpec = some cfg)
    (hver : determineVersion load find ds.appDir cfg.input.taskDefinitionFile =
      .error e) :
    (Plan inp load find now).err = none ∧
    (Plan inp load find now).out.version = "unknown" ∧
    (Plan inp load find now).warnings =
      ["unable to determine target version: " ++ e] := by
  cases hstrat : inp.deployment.trigger.syncStrategy <;>
    simp only [Plan, hget, hcfg, hstrat, hver] <;>
    (try split) <;> (try split) <;> refine ⟨?_, ?_, ?_⟩ <;> trivial

/-- C4 witness: the theorem applied to a concrete input whose image-tag
finder fails. -/
theorem C4_version_resolution_failure_nonfatal_witness :
    ({ deployment := { trigger := { syncStrategy := .PIPELINE } },
       mostRecentSuccessfulCommitHash := "abc",
       targetDSPGet := .ok dsEx } : PlannerInput).targetDSPGet = .ok dsEx ∧
    dsEx.deploymentConfig.ecsDeploymentSpec = some cfgEx ∧
    determineVersion loadEx findFailEx dsEx.appDir cfgEx.input.taskDefinitionFile =
      .error "no image tag found" ∧
    ((Plan { deployment := { trigger := { syncStrategy := .PIPELINE } },
             mostRecentSuccessfulCommitHash := "abc",
             targetDSPGet := .ok dsEx } loadEx findFailEx 42).err = none ∧
     (Plan { deployment := { trigger := { syncStrategy := .PIPELINE } },
             mostRecentSuccessfulCommitHash := "abc",
             targetDSPGet := .ok dsEx } loadEx findFailEx 42).out.version = "unknown" ∧
     (Plan { deployment := { trigger := { syncStrategy := .PIPELINE } },
             mostRecentSuccessfulCommitHash := "abc",
             targetDSPGet := .ok dsEx } loadEx findFailEx 42).warnings =
       ["unable to determine target version: " ++ "no image tag found"]) :=
  ⟨rfl, rfl, rfl,
   C4_version_resolution_failure_nonfatal
     { deployment := { trigger := { syncStrategy := .PIPELINE } },
       mostRecentSuccessfulCommitHash := "abc",
       targetDSPGet := .ok dsEx }
     dsEx cfgEx loadEx findFailEx 42 "no image tag found" rfl rfl rfl⟩

/-- C5: when the deploy-source provider's Get call fails, `Plan` returns
the wrapped fatal error and the zero output: no stages, no version, no
summary. -/
theorem C5_deploy_source_failure_fatal
    (inp : PlannerInput)
    (load : String → String → Except String TaskDefinition)
    (find : TaskDefinition → Except String String) (now : Int) (e : String)
    (hget : inp.targetDSPGet = .error e) :
    (Plan inp load find now).err =
      some ("error while preparing deploy source data (" ++ e ++ ")") ∧
    (Plan inp load find now).out.stages = [] ∧
    (Plan inp load find now).out.version = "" ∧
    (Plan inp load find now).out.summary = "" := by
  refine ⟨?_, ?_, ?_, ?_⟩ <;> simp only [Plan, hget, emptyOutput] <;> trivial

/-- C5 witness: the theorem applied to a concrete failing provider. -/
theorem C5_deploy_source_failure_fatal_witness :
    ({ deployment := { trigger := { syncStrategy := .AUTO } },
       mostRecentSuccessfulCommitHash := "abc",
       targetDSPGet := .error "repository unreachable" } : PlannerInput).targetDSPGet =
      .error "repository unreachable" ∧
    ((Plan { deployment := { trigger := { syncStrategy := .AUTO } },
             mostRecentSuccessfulCommitHash := "abc",
             targetDSPGet := .error "repository unreachable" } loadEx findEx 42).err =
       some ("error while preparing deploy source data (" ++ "repository unreachable" ++ ")") ∧
     (Plan { deployment := { trigger := { syncStrategy := .AUTO } },
             mostRecentSuccessfulCommitHash := "abc",
             targetDSPGet := .error "repository unreachable" } loadEx findEx 42).out.stages = [] ∧
     (Plan { deployment := { trigger := { syncStrategy := .AUTO } },
             mostRecentSuccessfulCommitHash := "abc",
             targetDSPGet := .error "repository unreachable" } loadEx findEx 42).out.version = "" ∧
     (Plan { deployment := { trigger := { syncStrategy := .AUTO } },
             mostRecentSuccessfulCommitHash := "abc",
             targetDSPGet := .error "repository unreachable" } loadEx findEx 42).out.summary = "") :=
  ⟨rfl,
   C5_deploy_source_failure_fatal
     { deployment := { trigger := { syncStrategy := .AUTO } },
       mostRecentSuccessfulCommitHash := "abc",
       targetDSPGet := .error "repository unreachable" }
     loadEx findEx 42 "repository unreachable" rfl⟩

end EcsPlanner

namespace EcsPlanner

/-- C6: when the deploy source materializes but carries no ECS
configuration section, `Plan` returns a fatal error and the zero output:
there is no silent default configuration. -/
theorem C6_missing_config_section_fatal
    (inp : PlannerInput) (ds : DeploySource)
    (load : String → String → Except String TaskDefinition)
    (find : TaskDefinition → Except String String) (now : Int)
    (hget : inp.targetDSPGet = .ok ds)
    (hcfg : ds.deploymentConfig.ecsDeploymentSpec = none) :
    (Plan inp load find now).err =
      some "missing ECSDeploymentSpec in deployment configuration" ∧
    (Plan inp load find now).out = emptyOutput := by
  refine ⟨?_, ?_⟩ <;> simp only [Plan, hget, hcfg]

/-- A deploy source whose deployment configuration has no ECS section. -/
def dsNoCfgEx : DeploySource :=
  { appDir := "app", deploymentConfig := { ecsDeploymentSpec := none } }

/-- C6 witness: the theorem applied to a concrete deploy source missing the
ECS configuration section. -/
theorem C6_missing_config_section_fatal_witness :
    ({ deployment := { trigger := { syncStrategy := .AUTO } },
       mostRecentSuccessfulCommitHash := "abc",
       targetDSPGet := .ok dsNoCfgEx } : PlannerInput).targetDSPGet = .ok dsNoCfgEx ∧
    dsNoCfgEx.deploymentConfig.ecsDeploymentSpec = none ∧
    ((Plan { deployment := { trigger := { syncStrategy := .AUTO } },
             mostRecentSuccessfulCommitHash := "abc",
             targetDSPGet := .ok dsNoCfgEx } loadEx findEx 42).err =
       some "missing ECSDeploymentSpec in deployment configuration" ∧
     (Plan { deployment := { trigger := { syncStrategy := .AUTO } },
             mostRecentSuccessfulCommitHash := "abc",
             targetDSPGet := .ok dsNoCfgEx } loadEx findEx 42).out = emptyOutput) :=
  ⟨rfl, rfl,
   C6_missing_config_section_fatal
     { deployment := { trigger := { syncStrategy := .AUTO } },
       mostRecentSuccessfulCommitHash := "abc",
       targetDSPGet := .ok dsNoCfgEx }
     dsNoCfgEx loadEx findEx 42 rfl rfl⟩

/-- The quick-sync pipeline always starts with the ECS sync stage. -/
theorem buildQuickSyncPipeline_head (b : Bool) (now : Int) :
    (buildQuickSyncPipeline b now).head?.map PipelineStage.name =
      some StageName.ECSSync := by
  cases b <;> rfl

/-- With auto-rollback enabled, the quick-sync pipeline ends with the
rollback stage. -/
theorem buildQuickSyncPipeline_rollback_last (now : Int) :
    (buildQuickSyncPipeline true now).getLast?.map PipelineStage.name =
      some StageName.Rollback := rfl

/-- With auto-rollback disabled, the quick-sync pipeline holds no rollback
stage. -/
theorem buildQuickSyncPipeline_no_rollback (now : Int) :
    ∀ st ∈ buildQuickSyncPipeline false now, st.name ≠ StageName.Rollback := by
  intro st hst
  cases hst with
  | head => exact fun hx => StageName.noConfusion hx
  | tail _ h2 => cases h2

/-- Every stage's ordering index equals its position in the list: the
indices are exactly 0, 1, ..., length - 1, hence contiguous, strictly
increasing, and starting at base 0. -/
def indicesSequential (l : List PipelineStage) : Prop :=
  ∀ i (h : i < l.length), (l.get ⟨i, h⟩).index = i

/-- Stage ordering indices of the quick-sync pipeline equal their list
positions. -/
theorem buildQuickSyncPipeline_index (b : Bool) (now : Int) :
    indicesSequential (buildQuickSyncPipeline b now) := by
  cases b <;> intro i h
  · have h1 : i < 1 := h
    interval_cases i
    rfl
  · have h2 : i < 2 := h
    interval_cases i <;> rfl

end EcsPlanner

namespace EcsPlanner

/-- A planner input with prior history, auto trigger, and the deploy source
`dsEx`. -/
def inpEx : PlannerInput :=
  { deployment := { trigger := { syncStrategy := .AUTO } }
    mostRecentSuccessfulCommitHash := "abc"
    targetDSPGet := .ok dsEx }

/-- C7: on every successful `Plan` call the stage sequence starts with the
primary deploy-and-shift-all-traffic stage (so it is non-empty); with
auto-rollback enabled its last element is the rollback stage, and with
auto-rollback disabled no rollback stage is present. -/
theorem C7_rollback_stage_placement
    (inp : PlannerInput) (ds : DeploySource) (cfg : ECSDeploymentSpec)
    (load : String → String → Except String TaskDefinition)
    (find : TaskDefinition → Except String String) (now : Int)
    (hget : inp.targetDSPGet = .ok ds)
    (hcfg : ds.deploymentConfig.ecsDeploymentSpec = some cfg) :
    (Plan inp load find now).err = none ∧
    (Plan inp load find now).out.stages.head?.map PipelineStage.name =
      some StageName.ECSSync ∧
    (Plan inp load find now).out.stages ≠ [] ∧
    (cfg.input.autoRollback = true →
      (Plan inp load find now).out.stages.getLast?.map PipelineStage.name =
        some StageName.Rollback) ∧
    (cfg.input.autoRollback = false →
      ∀ st ∈ (Plan inp load find now).out.stages, st.name ≠ StageName.Rollback) := by
  obtain ⟨h1, h2⟩ := plan_success inp ds cfg load find now hget hcfg
  rw [h2]
  refine ⟨h1, buildQuickSyncPipeline_head _ _, ?_, ?_, ?_⟩
  · cases cfg.input.autoRollback <;> exact fun hx => List.noConfusion hx
  · intro hb
    rw [hb]
    exact buildQuickSyncPipeline_rollback_last _
  · intro hb
    rw [hb]
    exact buildQuickSyncPipeline_no_rollback _

/-- C7 witness: the theorem applied to a concrete successful call with
auto-rollback enabled. -/
theorem C7_rollback_stage_placement_witness :
    inpEx.targetDSPGet = .ok dsEx ∧
    dsEx.deploymentConfig.ecsDeploymentSpec = some cfgEx ∧
    ((Plan inpEx loadEx findEx 42).err = none ∧
     (Plan inpEx loadEx findEx 42).out.stages.head?.map PipelineStage.name =
       some StageName.ECSSync ∧
     (Plan inpEx loadEx findEx 42).out.stages ≠ [] ∧
     (cfgEx.input.autoRollback = true →
       (Plan inpEx loadEx findEx 42).out.stages.getLast?.map PipelineStage.name =
         some StageName.Rollback) ∧
     (cfgEx.input.autoRollback = false →
       ∀ st ∈ (Plan inpEx loadEx findEx 42).out.stages,
         st.name ≠ StageName.Rollback)) :=
  ⟨rfl, rfl, C7_rollback_stage_placement inpEx dsEx cfgEx loadEx findEx 42 rfl rfl⟩

/-- C8: on every branch on which `Plan` succeeds, the returned stages carry
ordering indices that are contiguous, strictly increasing, and start at
index 0 for the first stage. -/
theorem C8_stage_indices_contiguous
    (inp : PlannerInput)
    (load : String → String → Except String TaskDefinition)
    (find : TaskDefinition → Except String String) (now : Int)
    (herr : (Plan inp load find now).err = none) :
    indicesSequential (Plan inp load find now).out.stages := by
  rcases hget : inp.targetDSPGet with e | ds
  · simp [Plan, hget] at herr
  · rcases hcfg : ds.deploymentConfig.ecsDeploymentSpec with _ | cfg
    · simp [Plan, hget, hcfg] at herr
    · obtain ⟨-, h2⟩ := plan_success inp ds cfg load find now hget hcfg
      rw [h2]
      exact buildQuickSyncPipeline_index _ _

/-- C8 witness: the theorem applied to a concrete successful call. -/
theorem C8_stage_indices_contiguous_witness :
    (Plan inpEx loadEx findEx 42).err = none ∧
    indicesSequential (Plan inpEx loadEx findEx 42).out.stages :=
  ⟨rfl, C8_stage_indices_contiguous inpEx loadEx findEx 42 rfl⟩

end EcsPlanner

namespace EcsPlanner

/-- C9 counterexample: with a registerer that rejects the second
registration of the ECS kind as a duplicate, the package-level `Register`
surfaces nothing to its caller even though the registerer returned the
duplicate-registration error — the error is discarded, so the claim that
it is surfaced is false. -/
theorem C9_counterexample :
    (Register (fun _ => Except.error "planner for ECS already registered")).registererErrors =
      [some "planner for ECS already registered"] ∧
    ¬ ((Register (fun _ => Except.error "planner for ECS already registered")).surfaced =
      some "planner for ECS already registered") := by
  refine ⟨rfl, ?_⟩
  intro h
  exact Option.noConfusion h

/-- C9 (amended): `Register` performs exactly one registration call, keyed
by the fixed ECS application-kind enumeration value, and surfaces no error
to its caller whatever the registerer returns: a duplicate-registration
error reported by the registerer is discarded, not surfaced. -/
theorem C9_register_keyed_by_ecs_error_discarded
    (r : ApplicationKind → Except String Unit) :
    (Register r).calls = [ApplicationKind.ECS] ∧
    (Register r).surfaced = none :=
  ⟨rfl, rfl⟩

/-- C10: an explicit non-quick-sync strategy (for example pipeline sync)
does not match the strategy switch: with a prior successful revision and a
non-empty configured pipeline, planning falls through to the default
branch and still returns the quick-sync stage list with the default
summary carrying no reason clause. -/
theorem C10_non_quick_strategy_not_honoured
    (strat : SyncStrategy) (hash : String) (ds : DeploySource)
    (cfg : ECSDeploymentSpec) (p : AppPipelineSpec)
    (load : String → String → Except String TaskDefinition)
    (find : TaskDefinition → Except String String) (now : Int)
    (hstrat : strat ≠ SyncStrategy.QUICK_SYNC)
    (hhash : hash ≠ "")
    (hcfg : ds.deploymentConfig.ecsDeploymentSpec = some cfg)
    (hpipe : cfg.pipeline = some p)
    (hne : p.stages ≠ []) :
    (Plan { deployment := { trigger := { syncStrategy := strat } },
            mostRecentSuccessfulCommitHash := hash,
            targetDSPGet := .ok ds } load find now).err = none ∧
    (Plan { deployment := { trigger := { syncStrategy := strat } },
            mostRecentSuccessfulCommitHash := hash,
            targetDSPGet := .ok ds } load find now).out.stages =
      buildQuickSyncPipeline cfg.input.autoRollback now ∧
    (Plan { deployment := { trigger := { syncStrategy := strat } },
            mostRecentSuccessfulCommitHash := hash,
            targetDSPGet := .ok ds } load find now).out.summary =
      "Quick sync to deploy image " ++
        (Plan { deployment := { trigger := { syncStrategy := strat } },
                mostRecentSuccessfulCommitHash := hash,
                targetDSPGet := .ok ds } load find now).out.version ++
        " and configure all traffic to it" := by
  have hcond : ¬ ((p.stages.length == 0) = true) := by
    simp only [beq_iff_eq, List.length_eq_zero]
    exact hne
  cases strat
  case QUICK_SYNC => exact absurd rfl hstrat
  all_goals
    refine ⟨?_, ?_, ?_⟩ <;>
      simp only [Plan, hcfg, hpipe, if_neg hhash, if_neg hcond] <;> trivial

/-- C10 witness: the theorem applied to a concrete pipeline-sync request
with history and a non-empty configured pipeline. -/
theorem C10_non_quick_strategy_not_honoured_witness :
    SyncStrategy.PIPELINE ≠ SyncStrategy.QUICK_SYNC ∧
    ("abc" : String) ≠ "" ∧
    dsPipeEx.deploymentConfig.ecsDeploymentSpec = some cfgPipeEx ∧
    cfgPipeEx.pipeline = some pipeEx ∧
    pipeEx.stages ≠ [] ∧
    ((Plan { deployment := { trigger := { syncStrategy := .PIPELINE } },
             mostRecentSuccessfulCommitHash := "abc",
             targetDSPGet := .ok dsPipeEx } loadEx findEx 42).err = none ∧
     (Plan { deployment := { trigger := { syncStrategy := .PIPELINE } },
             mostRecentSuccessfulCommitHash := "abc",
             targetDSPGet := .ok dsPipeEx } loadEx findEx 42).out.stages =
       buildQuickSyncPipeline cfgPipeEx.input.autoRollback 42 ∧
     (Plan { deployment := { trigger := { syncStrategy := .PIPELINE } },
             mostRecentSuccessfulCommitHash := "abc",
             targetDSPGet := .ok dsPipeEx } loadEx findEx 42).out.summary =
       "Quick sync to deploy image " ++
         (Plan { deployment := { trigger := { syncStrategy := .PIPELINE } },
                 mostRecentSuccessfulCommitHash := "abc",
                 targetDSPGet := .ok dsPipeEx } loadEx findEx 42).out.version ++
         " and configure all traffic to it") :=
  ⟨by decide, by decide, rfl, rfl, by decide,
   C10_non_quick_strategy_not_honoured .PIPELINE "abc" dsPipeEx cfgPipeEx pipeEx
     loadEx findEx 42 (by decide) (by decide) rfl rfl (by decide)⟩

end EcsPlanner
